import Mathlib

/-!
Verification of the cps-future future/promise engine against its
natural-language specification.

The development shallowly embeds the two future implementations of the
repository:

* `CpsFuture`: the typed template `cps::future<T>`
  (src/include/cps/future/implementation.h), instantiated at `T = String`
  (`std::string`), which is the instantiation the repository's own test
  suite uses.  The callbacks that the engine stores (`tasks_`) are
  defunctionalised into the inductive `CpsFuture.Cb`: each constructor is
  one of the closure shapes the source actually constructs (`on_done` /
  `on_fail` / `on_cancel` wrappers built inside `then`, the big `then`
  dispatch callback, and user-supplied `on_ready` callbacks as used by the
  test suite, which observes invocations through a captured flag - modelled
  here by an event log and an `okCalls` counter).  C++ exceptions are
  modelled as values of `CpsFuture.CppError`; an exception escaping a call
  is an `Outcome.threw` result.  Execution is a fuel-indexed interpreter
  `CpsFuture.run`.

* `CpsBase`: the untyped `cps::base_future` (src/include/cps/base_future.h),
  with its `needs_all` combinator and its per-queue drain loops (which
  catch `std::string` exceptions and rethrow everything else).

* `CpsRepeat`: `cps::base_future::repeat`'s recursion, embedded for the
  synchronous instantiation in which every future returned by the loop
  body is already complete, so the `then` callback fires immediately
  inside the registration call (the only instantiation in which the
  source's by-reference capture of `recurse` is still alive when the
  callback runs).
-/

namespace CpsFuture

/-- States of `cps::future<T>` (implementation.h, `enum class state`). -/
inductive FState where
  | pending
  | done
  | failed
  | cancelled
deriving DecidableEq, Repr

/-- Model of a C++ exception value: `std::logic_error` (thrown by
`apply_state` on double resolution and by `fail_from` on a non-failed
source) versus `std::runtime_error` and its subclasses (everything else
the engine throws or stores). Both derive from `std::exception`, and
`what()` returns the carried message. -/
inductive CppError where
  | logicError (msg : String)
  | runtimeError (msg : String)
deriving DecidableEq, Repr

/-- The message returned by `what()` on a modelled exception. -/
def errWhat : CppError → String
  | CppError.logicError m => m
  | CppError.runtimeError m => m

/-- Behaviour of a user-supplied `ok` callback handed to `then`: it either
returns (a shared pointer to) an existing future, or throws. This mirrors
the test suite's callbacks, which return a captured future `f2` (setting a
`called` flag, counted here by `World.okCalls`). -/
inductive OkSpec where
  | returnFut (g : Nat)
  | throwErr (msg : String)
deriving DecidableEq, Repr

/-- Behaviour of a failure handler handed to `then`, after it has been
wrapped by `exception_hoisting_callback`: a handler whose accepted
exception type is `std::string`/`std::exception` matches every stored
exception (both `CppError` shapes model `std::exception` subclasses) and
returns an existing future; a handler for an exception type the program
never throws matches nothing and yields `nullptr`. -/
inductive HandlerSpec where
  | matchStd (g : Nat)
  | matchNone
deriving DecidableEq, Repr

/-- Defunctionalised callbacks stored in a future's `tasks_` list. Each
constructor is one closure shape of implementation.h:

* `doneTo f`: `on_done([f](inner_type v) { f->done(v); })` registered on
  the inner future inside `then` (lines 501, 513);
* `failFromMe f`: `on_fail([f, inner](const std::string &) { f->fail_from(*inner); })`
  (lines 502, 514), with `inner` the future the callback is registered on;
* `cancelTo f`: both `on_cancel([f]() { f->cancel(); })` (lines 503, 515)
  and `f->on_cancel([inner]() { inner->cancel(); })` (lines 505, 517) -
  in each case an `on_cancel` wrapper that cancels a fixed target;
* `thenCb f ok handlers`: the dispatch callback registered by `then` via
  `call_when_ready` (lines 489-531) for the derived future `f`;
* `onDoneUser tag`: a user `on_done(code)` wrapper (lines 148-156) whose
  code records `tag` and the received value in the event log;
* `note tag`: a user `on_ready(code)` callback (lines 140-144) recording
  `tag` in the event log;
* `userThrow msg`: a user `on_ready` callback that raises
  `std::runtime_error(msg)`. -/
inductive Cb where
  | doneTo (f : Nat)
  | failFromMe (f : Nat)
  | cancelTo (f : Nat)
  | thenCb (f : Nat) (ok : OkSpec) (handlers : List HandlerSpec)
  | onDoneUser (tag : String)
  | note (tag : String)
  | userThrow (msg : String)
deriving DecidableEq, Repr

/-- One `cps::future<std::string>` object: the `state_`, `value_`,
`failure_reason_`, `ex_` and `tasks_` members of implementation.h.
(`label_`, `created_` and `resolved_` only feed diagnostics and timing and
are omitted.) -/
structure Fut where
  state : FState
  value : String
  failureReason : String
  ex : Option CppError
  tasks : List Cb
deriving DecidableEq, Repr

/-- A freshly constructed future: `state_(state::pending)`, empty value
(`T()` for `std::string`), no failure, no queued tasks. -/
def defaultFut : Fut :=
  { state := FState.pending, value := "", failureReason := "", ex := none, tasks := [] }

/-- The heap of live futures (indexed by allocation order) plus the two
pieces of instrumentation the repository's tests observe through captured
variables: how many times a `then` success callback has been invoked
(`bool called` in tests/future.cpp) and an event log for user callbacks. -/
structure World where
  futs : List Fut
  okCalls : Nat
  log : List String
deriving DecidableEq, Repr

/-- Reads future `i` (total, defaulting to a fresh future for bad ids). -/
def getFut (w : World) (i : Nat) : Fut :=
  w.futs.getD i defaultFut

/-- Replaces future `i`. -/
def setFut (w : World) (i : Nat) (f : Fut) : World :=
  { w with futs := w.futs.set i f }

/-- Appends an entry to the instrumentation log. -/
def addLog (w : World) (s : String) : World :=
  { w with log := w.log ++ [s] }

/-- Increments the `then`-success-callback invocation counter. -/
def incOk (w : World) : World :=
  { w with okCalls := w.okCalls + 1 }

/-- `future<T>::state_string` (implementation.h lines 603-611). -/
def state_string : FState → String
  | FState.pending => "pending"
  | FState.failed => "failed"
  | FState.cancelled => "cancelled"
  | FState.done => "done"

/-- The message of the `std::logic_error` thrown by `apply_state` on a
second resolution (line 702): it names the requested state and, through
`describe()`, the actual current state. -/
def doubleResolveMsg (want cur : FState) : String :=
  "tried to resolve future twice, wanted " ++ state_string want ++ ":" ++ state_string cur

/-- The locked first half of `future<T>::apply_state` (lines 691-712):
if the future is no longer pending, throw the double-resolve
`std::logic_error`; otherwise run the mutation `code(*this)`, take the
`tasks_` list (clearing the live one) and set the new state. Returns the
updated world together with the captured task list to drain; the drain
itself (lines 713-715) is performed by the interpreter. -/
def applyStateCore (w : World) (i : Nat) (upd : Fut → Fut) (s : FState) :
    Except CppError (World × List Cb) :=
  let fut := getFut w i
  if fut.state = FState.pending then
    let fut' := upd fut
    Except.ok (setFut w i { fut' with tasks := [], state := s }, fut'.tasks)
  else
    Except.error (CppError.logicError (doubleResolveMsg s fut.state))

/-- Outcome of executing a call: normal return, an escaped C++ exception,
or interpreter fuel exhaustion (never a behaviour of the program). -/
inductive Outcome where
  | ok
  | threw (e : CppError)
  | fuelOut
deriving DecidableEq, Repr

/-- Actions of the `future<T>` machine. Each constructor is one call shape
of implementation.h:

* `doneA i v`: `done(v)` on future `i` (lines 206-211);
* `failStrA i msg`: the string overload of `fail` (lines 214-228), which
  wraps the message in `std::runtime_error` and stores message + exception
  via the generic `fail` (lines 233-259);
* `failFromA i src`: `fail_from` (lines 261-285);
* `failExPtrA i e`: `fail_exception_pointer` (lines 535-548);
* `cancelA i`: `cancel` (lines 550-554);
* `runTaskA i cb`: invoking stored callback `cb` with `*this` = future `i`;
* `regTaskA i cb`: `call_when_ready` (lines 656-669): queue if pending,
  else invoke immediately;
* `drainA i cbs`: the unprotected drain loop of `apply_state`
  (lines 713-715) - note there is no try/catch here, so a throwing
  callback aborts the loop and the exception escapes;
* `seqA acts`: sequential composition, aborting at the first escaped
  exception;
* `thenBodyA i f ok handlers`: the try-block body of the `then` dispatch
  callback (lines 494-525);
* `handlersA i f hs`: the failure-handler loop of that body
  (lines 510-522). -/
inductive Act where
  | doneA (i : Nat) (v : String)
  | failStrA (i : Nat) (msg : String)
  | failFromA (i : Nat) (src : Nat)
  | failExPtrA (i : Nat) (e : CppError)
  | cancelA (i : Nat)
  | runTaskA (i : Nat) (cb : Cb)
  | regTaskA (i : Nat) (cb : Cb)
  | drainA (i : Nat) (cbs : List Cb)
  | seqA (acts : List Act)
  | thenBodyA (i : Nat) (f : Nat) (ok : OkSpec) (handlers : List HandlerSpec)
  | handlersA (i : Nat) (f : Nat) (hs : List HandlerSpec)

/-- The four registrations `then` performs once it has the inner future
(lines 501-505 on success, 513-517 on a matched failure handler): wire the
inner future `g`'s outcome onto the derived future `f`, and forward a
cancellation of `f` to `g`. -/
def wireActs (f g : Nat) : List Act :=
  [Act.regTaskA g (Cb.doneTo f),
   Act.regTaskA g (Cb.failFromMe f),
   Act.regTaskA g (Cb.cancelTo f),
   Act.regTaskA f (Cb.cancelTo g)]

/-- Fuel-indexed interpreter for the `future<T>` machine. Fuel only bounds
call depth; every theorem below supplies enough fuel that `Outcome.fuelOut`
never occurs on the executions it talks about. -/
def run : Nat → World → Act → World × Outcome
  | 0, w, _ => (w, Outcome.fuelOut)
  | Nat.succ fuel, w, a =>
    match a with
    | Act.doneA i v =>
      match applyStateCore w i (fun f => { f with value := v }) FState.done with
      | Except.error e => (w, Outcome.threw e)
      | Except.ok (w', tasks) => run fuel w' (Act.drainA i tasks)
    | Act.failStrA i msg =>
      match applyStateCore w i
          (fun f => { f with failureReason := msg, ex := some (CppError.runtimeError msg) })
          FState.failed with
      | Except.error e => (w, Outcome.threw e)
      | Except.ok (w', tasks) => run fuel w' (Act.drainA i tasks)
    | Act.failFromA i src =>
      let sf := getFut w src
      if sf.state = FState.failed then
        match applyStateCore w i
            (fun f =>
              match sf.ex with
              | some e => { f with ex := some e, failureReason := errWhat e }
              | none => { f with ex := none, failureReason := "unknown" })
            FState.failed with
        | Except.error e => (w, Outcome.threw e)
        | Except.ok (w', tasks) => run fuel w' (Act.drainA i tasks)
      else
        (w, Outcome.threw (CppError.logicError "future is not failed"))
    | Act.failExPtrA i e =>
      match applyStateCore w i
          (fun f => { f with ex := some e, failureReason := errWhat e }) FState.failed with
      | Except.error e' => (w, Outcome.threw e')
      | Except.ok (w', tasks) => run fuel w' (Act.drainA i tasks)
    | Act.cancelA i =>
      match applyStateCore w i (fun f => f) FState.cancelled with
      | Except.error e => (w, Outcome.threw e)
      | Except.ok (w', tasks) => run fuel w' (Act.drainA i tasks)
    | Act.runTaskA i cb =>
      let me := getFut w i
      match cb with
      | Cb.doneTo f =>
        if me.state = FState.done then run fuel w (Act.doneA f me.value) else (w, Outcome.ok)
      | Cb.failFromMe f =>
        if me.state = FState.failed then run fuel w (Act.failFromA f i) else (w, Outcome.ok)
      | Cb.cancelTo f =>
        if me.state = FState.cancelled then run fuel w (Act.cancelA f) else (w, Outcome.ok)
      | Cb.thenCb f ok handlers =>
        match run fuel w (Act.thenBodyA i f ok handlers) with
        | (w', Outcome.threw e) => run fuel w' (Act.failExPtrA f e)
        | r => r
      | Cb.onDoneUser tag =>
        if me.state = FState.done then (addLog w (tag ++ ":" ++ me.value), Outcome.ok)
        else (w, Outcome.ok)
      | Cb.note tag => (addLog w tag, Outcome.ok)
      | Cb.userThrow msg => (w, Outcome.threw (CppError.runtimeError msg))
    | Act.regTaskA i cb =>
      let fut := getFut w i
      if fut.state = FState.pending then
        (setFut w i { fut with tasks := fut.tasks ++ [cb] }, Outcome.ok)
      else
        run fuel w (Act.runTaskA i cb)
    | Act.drainA i cbs =>
      match cbs with
      | [] => (w, Outcome.ok)
      | c :: cs =>
        match run fuel w (Act.runTaskA i c) with
        | (w', Outcome.ok) => run fuel w' (Act.drainA i cs)
        | r => r
    | Act.seqA acts =>
      match acts with
      | [] => (w, Outcome.ok)
      | x :: xs =>
        match run fuel w x with
        | (w', Outcome.ok) => run fuel w' (Act.seqA xs)
        | r => r
    | Act.thenBodyA i f ok handlers =>
      if (getFut w f).state = FState.pending then
        let me := getFut w i
        match me.state with
        | FState.done =>
          match ok with
          | OkSpec.throwErr m =>
            (addLog (incOk w) ("ok:" ++ me.value), Outcome.threw (CppError.runtimeError m))
          | OkSpec.returnFut g =>
            run fuel (addLog (incOk w) ("ok:" ++ me.value)) (Act.seqA (wireActs f g))
        | FState.failed => run fuel w (Act.handlersA i f handlers)
        | FState.cancelled => run fuel w (Act.cancelA f)
        | FState.pending => (w, Outcome.ok)
      else
        (w, Outcome.ok)
    | Act.handlersA i f hs =>
      match hs with
      | [] => run fuel w (Act.failFromA f i)
      | h :: rest =>
        match h with
        | HandlerSpec.matchStd g =>
          if (getFut w i).ex.isSome then run fuel w (Act.seqA (wireActs f g))
          else run fuel w (Act.handlersA i f rest)
        | HandlerSpec.matchNone => run fuel w (Act.handlersA i f rest)

/-- `future<T>::then` (lines 450-533): allocate the derived future (by
`create_shared`, initially pending, id = next heap slot) and register the
dispatch callback on the source via `call_when_ready`. Returns the
post-registration world and outcome, and the derived future's id. -/
def thenOp (w : World) (src : Nat) (ok : OkSpec) (handlers : List HandlerSpec) (fuel : Nat) :
    (World × Outcome) × Nat :=
  let f := w.futs.length
  let w' := { w with futs := w.futs ++ [defaultFut] }
  (run fuel w' (Act.regTaskA src (Cb.thenCb f ok handlers)), f)

/-- `future<T>::value()` (lines 291-330): value if done; otherwise throw
(`std::runtime_error` when pending or cancelled, the stored exception when
failed, `std::logic_error` if a failed future somehow has no exception). -/
def value (f : Fut) : Except CppError String :=
  match f.state with
  | FState.pending => Except.error (CppError.runtimeError "future is not complete")
  | FState.failed =>
    match f.ex with
    | some e => Except.error e
    | none => Except.error (CppError.logicError "no exception available")
  | FState.cancelled => Except.error (CppError.runtimeError "future was cancelled")
  | FState.done => Except.ok f.value

/-- `future<T>::failure_reason()` (lines 571-575): the stored message if
failed, otherwise throws `std::runtime_error("future is not failed")`. -/
def failure_reason (f : Fut) : Except CppError String :=
  if f.state = FState.failed then Except.ok f.failureReason
  else Except.error (CppError.runtimeError "future is not failed")

/-- Modelled from the spec: `cps/future/error_code.h` is not under src/;
the spec's error-classification facility maps the failure kinds to a
structured code, and `future<T>::value(std::error_code&)` names the codes
`future_errc::is_pending`, `future_errc::is_failed` and
`future_errc::is_cancelled`. -/
inductive FutureErrc where
  | is_pending
  | is_failed
  | is_cancelled
deriving DecidableEq, Repr

/-- A `std::error_code` value as seen by the caller of `value(ec)`: clear,
one of the future error codes, or a code from some unrelated category. -/
inductive ErrCode where
  | clear
  | futureCode (c : FutureErrc)
  | foreign (n : Nat)
deriving DecidableEq, Repr

/-- Modelled from the spec: `make_error_code` of the missing
`cps/future/error_code.h`, wrapping a `future_errc` into an error code. -/
def make_error_code (c : FutureErrc) : ErrCode :=
  ErrCode.futureCode c

/-- The non-throwing `future<T>::value(std::error_code &ec)` (lines
332-349): on a non-done state it assigns `ec` and returns a
default-constructed value (`""` for `std::string`); on done it returns the
stored value without touching `ec`. The returned pair is (result, final
contents of `ec`). -/
def valueEc (f : Fut) (ec : ErrCode) : String × ErrCode :=
  match f.state with
  | FState.pending => ("", make_error_code FutureErrc.is_pending)
  | FState.failed => ("", make_error_code FutureErrc.is_failed)
  | FState.cancelled => ("", make_error_code FutureErrc.is_cancelled)
  | FState.done => (f.value, ec)

/-- Scenario of the `then` success-path test ("we can chain futures via
->then"): two fresh futures `f` (id 0) and `g` (id 1). -/
def c2w0 : World :=
  { futs := [defaultFut, defaultFut], okCalls := 0, log := [] }

/-- After `seq = f->then(ok)` with `ok` returning `g`: the derived future
has id 2 and the dispatch callback is queued on `f`. -/
def c2Wired : World :=
  ((thenOp c2w0 0 (OkSpec.returnFut 1) [] 40).1).1

/-- State after `f->done(input)`. -/
def c2AfterSrc (input : String) : World × Outcome :=
  run 40 c2Wired (Act.doneA 0 input)

/-- State after `f->done(input)` followed by `g->done(x)`. -/
def c2AfterInner (input x : String) : World × Outcome :=
  run 40 (c2AfterSrc input).1 (Act.doneA 1 x)

/-- Scenario for the callback-exception policy: a future with a queue of
registered callbacks whose first entry throws `std::runtime_error(msg)`
and whose remainder is arbitrary. -/
def c4w (msg : String) (rest : List Cb) : World :=
  { futs :=
      [{ state := FState.pending, value := "", failureReason := "", ex := none,
         tasks := Cb.userThrow msg :: rest }],
    okCalls := 0, log := [] }

/-- Resolving that future: `done(v)` drains the queue. -/
def c4run (msg : String) (rest : List Cb) (v : String) : World × Outcome :=
  run 40 (c4w msg rest) (Act.doneA 0 v)

/-- Concrete instance: the queue is a throwing callback followed by a
logging callback that would record `"second"`. -/
def c4crun : World × Outcome :=
  c4run "boom" [Cb.note "second"] "v"

/-- Scenario for the failure path of `fail`/`failure_reason`: one fresh
future. -/
def c7w0 : World :=
  { futs := [defaultFut], okCalls := 0, log := [] }

/-- State after `f->fail(msg)` through the string overload. -/
def c7Fail (msg : String) : World × Outcome :=
  run 5 c7w0 (Act.failStrA 0 msg)

/-- Scenario of the `then` failure-path test: fresh `f` (id 0) and a
future `g` (id 1) for the (never invoked) success callback; the derived
future `seq` gets id 2. No failure handlers are supplied. -/
def c8NoHandler : World :=
  ((thenOp c2w0 0 (OkSpec.returnFut 1) [] 40).1).1

/-- Same wiring, but with one failure handler whose accepted exception
shape never matches. -/
def c8NonMatching : World :=
  ((thenOp c2w0 0 (OkSpec.returnFut 1) [HandlerSpec.matchNone] 40).1).1

/-- `f->fail(msg)` against the handlerless wiring. -/
def c8FailA (msg : String) : World × Outcome :=
  run 40 c8NoHandler (Act.failStrA 0 msg)

/-- `f->fail(msg)` against the non-matching-handler wiring. -/
def c8FailB (msg : String) : World × Outcome :=
  run 40 c8NonMatching (Act.failStrA 0 msg)

/-- Scenario for the idempotence guard: fresh `f` (id 0), inner future
`g` (id 1), derived future `seq` (id 2) built by `f->then(ok)` with `ok`
returning `g`. -/
def c9Wired : World :=
  ((thenOp c2w0 0 (OkSpec.returnFut 1) [] 40).1).1

/-- Guard scenario (a): `seq` is cancelled externally before `f`
resolves. -/
def c9CancelFirst : World × Outcome :=
  run 40 c9Wired (Act.cancelA 2)

/-- Guard scenario (a) continued: the source then resolves done. -/
def c9ThenDone (input : String) : World × Outcome :=
  run 40 c9CancelFirst.1 (Act.doneA 0 input)

/-- Guard scenario (b): the source resolves done first, wiring `g` to
`seq`. -/
def c9DoneFirst (input : String) : World × Outcome :=
  run 40 c9Wired (Act.doneA 0 input)

/-- Guard scenario (b) continued: `seq` is then cancelled, which cancels
`g`, whose wiring tries to propagate the cancellation back into the
already-terminal `seq`. -/
def c9ThenCancel (input : String) : World × Outcome :=
  run 40 (c9DoneFirst input).1 (Act.cancelA 2)

end CpsFuture

namespace CpsBase

/-- States of `cps::base_future` (base_future.h, `enum state`; note the
untyped class calls its success state `complete`). -/
inductive BState where
  | pending
  | cancelled
  | failed
  | complete
deriving DecidableEq, Repr

/-- Defunctionalised callbacks stored in a `base_future`'s `on_done_`,
`on_fail_` and `on_cancel_` queues. Each constructor is one closure shape
of base_future.h:

* `naOk f c`: the `ok` handler of `needs_all` (lines 334-337), wrapping
  the countdown `h` (lines 325-333) over shared counter `c`;
* `naFail f p`: the `fail_handler` of `needs_all` (lines 338-344);
* `naCan f p`: the `can` handler of `needs_all` (lines 345-352);
* `bnote tag`: a user callback recording `tag` in the event log;
* `bthrowStr msg`: a user callback throwing a `std::string` (the exception
  type `done`/`fail`/`cancel` catch and report, lines 171-172);
* `bthrowOther msg`: a user callback throwing anything else (caught by the
  `catch(...)` arm, which reports and then rethrows, lines 173-175). -/
inductive BCb where
  | naOk (f : Nat) (c : Nat)
  | naFail (f : Nat) (p : List Nat)
  | naCan (f : Nat) (p : List Nat)
  | bnote (tag : String)
  | bthrowStr (msg : String)
  | bthrowOther (msg : String)
deriving DecidableEq, Repr

/-- One `cps::base_future` object: `state_`, the stored failure info
`ex_` (modelled by its `reason()` string plus a presence flag - note the
`base_future::exception` constructor at lines 51-58 initialises `reason_`
to `"unknown"` and drops both the wrapped exception and the message), and
the three callback queues. -/
structure BFut where
  state : BState
  exReason : String
  hasEx : Bool
  onDone : List BCb
  onFail : List BCb
  onCancel : List BCb
deriving DecidableEq, Repr

/-- A freshly created `base_future` (`create()`, lines 143-148). -/
def defaultBFut : BFut :=
  { state := BState.pending, exReason := "", hasEx := false,
    onDone := [], onFail := [], onCancel := [] }

/-- Heap of live base futures, the shared `std::atomic<int>` countdown
counters allocated by `needs_all`, and an event log capturing what the
drain loops print to `std::cerr` and what user callbacks record. -/
structure BWorld where
  futs : List BFut
  counters : List Int
  log : List String
deriving DecidableEq, Repr

/-- Reads base future `i`. -/
def getB (w : BWorld) (i : Nat) : BFut :=
  w.futs.getD i defaultBFut

/-- Replaces base future `i`. -/
def setB (w : BWorld) (i : Nat) (f : BFut) : BWorld :=
  { w with futs := w.futs.set i f }

/-- Reads counter `c`. -/
def getC (w : BWorld) (c : Nat) : Int :=
  w.counters.getD c 0

/-- Replaces counter `c`. -/
def setC (w : BWorld) (c : Nat) (v : Int) : BWorld :=
  { w with counters := w.counters.set c v }

/-- Appends an entry to the event log. -/
def addB (w : BWorld) (s : String) : BWorld :=
  { w with log := w.log ++ [s] }

/-- Outcome of a `base_future` call: normal return, an escaped thrown
`std::string`, an escaped exception of any other type, or interpreter fuel
exhaustion (never a behaviour of the program). -/
inductive BOutcome where
  | ok
  | threwStr (msg : String)
  | threwOther (msg : String)
  | fuelOut
deriving DecidableEq, Repr

/-- Actions of the `base_future` machine. Each constructor is one call
shape of base_future.h:

* `doneA i`: `done()` (lines 154-183) - `mark_ready(complete)` with NO
  pending check, clear the fail/cancel queues, then the while-loop drain;
* `failA i reason`: the private `fail()` (lines 363-383) with the
  exception (carrying `reason`) already stored; the public string overload
  (lines 214-225) stores an `exception` whose `reason()` is always
  `"unknown"` and is modelled by `failStringApi`;
* `cancelA i`: `cancel()` (lines 386-405);
* `runCbA i cb`: invoking stored callback `cb` on future `i`;
* `loopDoneA i` / `drainDoneA i cbs`: the `while(!on_done_.empty())` loop
  of `done` and its inner for-loop over the captured copy, which catches
  thrown `std::string`s (reporting to cerr, continuing) and rethrows every
  other exception; likewise `loopFailA`/`drainFailA` for `fail` and
  `loopCancelA`/`drainCancelA` for `cancel`;
* `regDoneA` / `regFailA` / `regCancelA`: `on_done`/`on_fail`/`on_cancel`
  registration (lines 437-465): queue if not ready, invoke immediately if
  resolved in the matching state, drop otherwise;
* `cancelPendingA p`: the `for(auto &it : *p) if(!it->is_ready()) it->cancel();`
  loops inside `fail_handler` and `can` (lines 340-342, 348-350);
* `seqA acts`: sequential composition, aborting at the first escape. -/
inductive BAct where
  | doneA (i : Nat)
  | failA (i : Nat) (reason : String)
  | cancelA (i : Nat)
  | runCbA (i : Nat) (cb : BCb)
  | loopDoneA (i : Nat)
  | drainDoneA (i : Nat) (cbs : List BCb)
  | loopFailA (i : Nat)
  | drainFailA (i : Nat) (cbs : List BCb)
  | loopCancelA (i : Nat)
  | drainCancelA (i : Nat) (cbs : List BCb)
  | regDoneA (i : Nat) (cb : BCb)
  | regFailA (i : Nat) (cb : BCb)
  | regCancelA (i : Nat) (cb : BCb)
  | cancelPendingA (p : List Nat)
  | seqA (acts : List BAct)

/-- Fuel-indexed interpreter for the `base_future` machine. -/
def bRun : Nat → BWorld → BAct → BWorld × BOutcome
  | 0, w, _ => (w, BOutcome.fuelOut)
  | Nat.succ fuel, w, a =>
    match a with
    | BAct.doneA i =>
      let fut := getB w i
      let w' := setB w i { fut with state := BState.complete, onFail := [], onCancel := [] }
      bRun fuel w' (BAct.loopDoneA i)
    | BAct.failA i reason =>
      let fut := getB w i
      let w' := setB w i
        { fut with state := BState.failed, exReason := reason, hasEx := true,
                   onDone := [], onCancel := [] }
      bRun fuel w' (BAct.loopFailA i)
    | BAct.cancelA i =>
      let fut := getB w i
      let w' := setB w i { fut with state := BState.cancelled, onDone := [], onFail := [] }
      bRun fuel w' (BAct.loopCancelA i)
    | BAct.loopDoneA i =>
      let fut := getB w i
      match fut.onDone with
      | [] => (w, BOutcome.ok)
      | q =>
        let w' := setB w i { fut with onDone := [] }
        match bRun fuel w' (BAct.drainDoneA i q) with
        | (w'', BOutcome.ok) => bRun fuel w'' (BAct.loopDoneA i)
        | r => r
    | BAct.drainDoneA i cbs =>
      match cbs with
      | [] => (w, BOutcome.ok)
      | c :: cs =>
        match bRun fuel w (BAct.runCbA i c) with
        | (w', BOutcome.ok) => bRun fuel w' (BAct.drainDoneA i cs)
        | (w', BOutcome.threwStr m) =>
          bRun fuel (addB w' ("Exception in callback - " ++ m)) (BAct.drainDoneA i cs)
        | (w', BOutcome.threwOther m) =>
          (addB w' "Unknown exception in callback", BOutcome.threwOther m)
        | r => r
    | BAct.loopFailA i =>
      let fut := getB w i
      match fut.onFail with
      | [] => (w, BOutcome.ok)
      | q =>
        let w' := setB w i { fut with onFail := [] }
        match bRun fuel w' (BAct.drainFailA i q) with
        | (w'', BOutcome.ok) => bRun fuel w'' (BAct.loopFailA i)
        | r => r
    | BAct.drainFailA i cbs =>
      match cbs with
      | [] => (w, BOutcome.ok)
      | c :: cs =>
        match bRun fuel w (BAct.runCbA i c) with
        | (w', BOutcome.ok) => bRun fuel w' (BAct.drainFailA i cs)
        | (w', BOutcome.threwStr m) =>
          bRun fuel (addB w' ("Exception in callback - " ++ m)) (BAct.drainFailA i cs)
        | (w', BOutcome.threwOther m) =>
          (addB w' "Unknown exception in callback", BOutcome.threwOther m)
        | r => r
    | BAct.loopCancelA i =>
      let fut := getB w i
      match fut.onCancel with
      | [] => (w, BOutcome.ok)
      | q =>
        let w' := setB w i { fut with onCancel := [] }
        match bRun fuel w' (BAct.drainCancelA i q) with
        | (w'', BOutcome.ok) => bRun fuel w'' (BAct.loopCancelA i)
        | r => r
    | BAct.drainCancelA i cbs =>
      match cbs with
      | [] => (w, BOutcome.ok)
      | c :: cs =>
        match bRun fuel w (BAct.runCbA i c) with
        | (w', BOutcome.ok) => bRun fuel w' (BAct.drainCancelA i cs)
        | (w', BOutcome.threwStr m) =>
          bRun fuel (addB w' ("Exception in callback - " ++ m)) (BAct.drainCancelA i cs)
        | (w', BOutcome.threwOther m) =>
          (addB w' "Unknown exception in callback", BOutcome.threwOther m)
        | r => r
    | BAct.runCbA i cb =>
      let me := getB w i
      match cb with
      | BCb.naOk f c =>
        if (getB w f).state = BState.pending then
          let v := getC w c - 1
          let w' := setC w c v
          if v = 0 ∧ (getB w' f).state = BState.pending then
            bRun fuel w' (BAct.doneA f)
          else (w', BOutcome.ok)
        else (w, BOutcome.ok)
      | BCb.naFail f p =>
        if (getB w f).state = BState.pending then
          bRun fuel w (BAct.seqA [BAct.cancelPendingA p, BAct.failA f me.exReason])
        else (w, BOutcome.ok)
      | BCb.naCan f p =>
        if (getB w f).state = BState.pending then
          bRun fuel w (BAct.seqA [BAct.cancelPendingA p, BAct.cancelA f])
        else (w, BOutcome.ok)
      | BCb.bnote tag => (addB w tag, BOutcome.ok)
      | BCb.bthrowStr msg => (w, BOutcome.threwStr msg)
      | BCb.bthrowOther msg => (w, BOutcome.threwOther msg)
    | BAct.regDoneA i cb =>
      let fut := getB w i
      if fut.state = BState.pending then
        (setB w i { fut with onDone := fut.onDone ++ [cb] }, BOutcome.ok)
      else if fut.state = BState.complete then bRun fuel w (BAct.runCbA i cb)
      else (w, BOutcome.ok)
    | BAct.regFailA i cb =>
      let fut := getB w i
      if fut.state = BState.pending then
        (setB w i { fut with onFail := fut.onFail ++ [cb] }, BOutcome.ok)
      else if fut.state = BState.failed then bRun fuel w (BAct.runCbA i cb)
      else (w, BOutcome.ok)
    | BAct.regCancelA i cb =>
      let fut := getB w i
      if fut.state = BState.pending then
        (setB w i { fut with onCancel := fut.onCancel ++ [cb] }, BOutcome.ok)
      else if fut.state = BState.cancelled then bRun fuel w (BAct.runCbA i cb)
      else (w, BOutcome.ok)
    | BAct.cancelPendingA p =>
      match p with
      | [] => (w, BOutcome.ok)
      | x :: xs =>
        if (getB w x).state = BState.pending then
          match bRun fuel w (BAct.cancelA x) with
          | (w', BOutcome.ok) => bRun fuel w' (BAct.cancelPendingA xs)
          | r => r
        else bRun fuel w (BAct.cancelPendingA xs)
    | BAct.seqA acts =>
      match acts with
      | [] => (w, BOutcome.ok)
      | x :: xs =>
        match bRun fuel w x with
        | (w', BOutcome.ok) => bRun fuel w' (BAct.seqA xs)
        | r => r

/-- The public string overload `base_future::fail(const std::string&, ...)`
(lines 214-225): it wraps the message in a `fail_exception`, but the
`exception` constructor (lines 51-58) discards it and stores the fixed
reason `"unknown"`. -/
def failStringApi (i : Nat) (_msg : String) : BAct :=
  BAct.failA i "unknown"

/-- Move-construction of `std::vector`: `needs_all` builds its shared copy
with `std::make_shared<std::vector<ptr>>(std::move(pending))`, which
leaves the moved-from `pending` empty. -/
def movedFrom (_v : List Nat) : List Nat :=
  []

/-- The registration loop of `needs_all` (lines 353-357): for each input,
register the `ok`, `fail_handler` and `can` closures. -/
def needsAllActs (f c : Nat) (p : List Nat) : List BAct :=
  (p.map (fun it =>
    [BAct.regDoneA it (BCb.naOk f c),
     BAct.regFailA it (BCb.naFail f p),
     BAct.regCancelA it (BCb.naCan f p)])).flatten

/-- `base_future::needs_all` (lines 320-359): create the aggregate `f`,
allocate the shared countdown and initialise it with
`*count = pending.size()` - evaluated AFTER `pending` was moved into the
shared copy `p`, so the counter starts at the size of the moved-from
vector - then register the three handlers on every input. Returns the
post-registration world and outcome together with the aggregate's id. -/
def needsAll (fuel : Nat) (w : BWorld) (inputs : List Nat) : (BWorld × BOutcome) × Nat :=
  let f := w.futs.length
  let w₁ := { w with futs := w.futs ++ [defaultBFut] }
  let c := w₁.counters.length
  let w₂ := { w₁ with counters := w₁.counters ++ [Int.ofNat (movedFrom inputs).length] }
  (bRun fuel w₂ (BAct.seqA (needsAllActs f c inputs)), f)

/-- Scenario for the drain policy of the untyped class: a `base_future`
whose done-queue holds a callback throwing a `std::string` followed by a
logging callback. -/
def c4bw : BWorld :=
  { futs :=
      [{ state := BState.pending, exReason := "", hasEx := false,
         onDone := [BCb.bthrowStr "boom", BCb.bnote "second"],
         onFail := [], onCancel := [] }],
    counters := [], log := [] }

/-- Resolving that `base_future` done. -/
def c4brun : BWorld × BOutcome :=
  bRun 40 c4bw (BAct.doneA 0)

/-- `needs_all` with an empty vector of futures. -/
def c3empty : (BWorld × BOutcome) × Nat :=
  needsAll 60 { futs := [], counters := [], log := [] } []

/-- `needs_all` over one pending input future (id 0). -/
def c3one : (BWorld × BOutcome) × Nat :=
  needsAll 60 { futs := [defaultBFut], counters := [], log := [] } [0]

/-- ... after that single input is marked done. -/
def c3oneDone : BWorld × BOutcome :=
  bRun 60 c3one.1.1 (BAct.doneA 0)

/-- `needs_all` over two pending inputs (ids 0 and 1); the aggregate gets
id 2. -/
def c3two : (BWorld × BOutcome) × Nat :=
  needsAll 60 { futs := [defaultBFut, defaultBFut], counters := [], log := [] } [0, 1]

/-- ... after both inputs are marked done. -/
def c3bothDone : BWorld × BOutcome :=
  bRun 60 (bRun 60 c3two.1.1 (BAct.doneA 0)).1 (BAct.doneA 1)

/-- ... after the first input fails (public string overload). -/
def c3fail : BWorld × BOutcome :=
  bRun 60 c3two.1.1 (failStringApi 0 "some failure")

/-- ... after the first input is cancelled. -/
def c3cancel : BWorld × BOutcome :=
  bRun 60 c3two.1.1 (BAct.cancelA 0)

end CpsBase

namespace CpsRepeat

/-- Embedding of the `recurse` closure of `base_future::repeat`
(base_future.h lines 261-318), for the synchronous instantiation in which
every future returned by `each` is already complete, so the callback that
`then` registers on it fires immediately inside the registration call and
re-enters `recurse`. Loop states are abstracted to an index `s : Nat`;
`check` is the user predicate and `next` advances the state exactly as the
completed future returned by `each` would deliver it. The parameters:

* `ready` - the `if(f->is_ready()) return f;` guard on entry (the loop
  future is pending until `check` succeeds, so a fresh run starts with
  `ready = false`);
* `calls` - how many times `each` (the loop body) has been invoked so far;
* fuel bounds the recursion depth.

The result is `some n` when the loop future resolves done after `n` body
invocations in total, `none` when fuel runs out. -/
def repeatRun (check : Nat → Bool) (next : Nat → Nat) :
    Nat → Bool → Nat → Nat → Option Nat
  | 0, _, _, _ => none
  | Nat.succ fuel, ready, s, calls =>
    if ready then some calls
    else if check s then some calls
    else repeatRun check next fuel false (next s) (calls + 1)

/-- `base_future::repeat` entry: `next->done()` is already complete and
`(*code)(next)` enters `recurse` with the initial state, the loop future
still pending and no body invocations performed. -/
def repeatStart (check : Nat → Bool) (next : Nat → Nat) (fuel s : Nat) : Option Nat :=
  repeatRun check next fuel false s 0

end CpsRepeat

open CpsFuture CpsBase CpsRepeat

set_option maxHeartbeats 1000000

/-- Claim C1: for every future already in a terminal state (done, failed
or cancelled), any further call to `done`, `fail` or `cancel` - in any
combination - is rejected: `apply_state` throws the double-resolve
`std::logic_error` naming the requested and the actual state, and the
world (hence the future's state, stored value and stored failure info) is
left exactly as it was. -/
theorem C1_double_resolve_rejected (w : World) (i fuel : Nat) (v msg : String)
    (h : (getFut w i).state ≠ FState.pending) :
    run (fuel + 1) w (Act.doneA i v)
      = (w, Outcome.threw (CppError.logicError
          (doubleResolveMsg FState.done (getFut w i).state)))
    ∧ run (fuel + 1) w (Act.failStrA i msg)
      = (w, Outcome.threw (CppError.logicError
          (doubleResolveMsg FState.failed (getFut w i).state)))
    ∧ run (fuel + 1) w (Act.cancelA i)
      = (w, Outcome.threw (CppError.logicError
          (doubleResolveMsg FState.cancelled (getFut w i).state))) := by
  refine ⟨?_, ?_, ?_⟩ <;> simp [run, applyStateCore, h]

/-- Witness for C1: a future that is already done rejects a second
`done`. -/
theorem C1_double_resolve_rejected_witness :
    run 1
      { futs := [{ state := FState.done, value := "42", failureReason := "",
                   ex := none, tasks := [] }],
        okCalls := 0, log := [] }
      (Act.doneA 0 "99")
      = ({ futs := [{ state := FState.done, value := "42", failureReason := "",
                      ex := none, tasks := [] }],
           okCalls := 0, log := [] },
         Outcome.threw (CppError.logicError
           (doubleResolveMsg FState.done FState.done))) :=
  (C1_double_resolve_rejected
    { futs := [{ state := FState.done, value := "42", failureReason := "",
                 ex := none, tasks := [] }],
      okCalls := 0, log := [] }
    0 0 "99" "m" (by decide)).1

/-- Evaluation of the C2 scenario after `f->done(input)`: the dispatch
callback ran the success callback once (logging the received value), wired
`g` onto `seq` and forwarded `seq`'s cancellation to `g`. -/
theorem c2_src_eval (input : String) :
    c2AfterSrc input
      = ({ futs :=
             [{ state := FState.done, value := input, failureReason := "",
                ex := none, tasks := [] },
              { state := FState.pending, value := "", failureReason := "", ex := none,
                tasks := [Cb.doneTo 2, Cb.failFromMe 2, Cb.cancelTo 2] },
              { state := FState.pending, value := "", failureReason := "", ex := none,
                tasks := [Cb.cancelTo 1] }],
           okCalls := 1, log := ["ok:" ++ input] }, Outcome.ok) :=
  rfl

/-- Evaluation of the C2 scenario after `f->done(input)` and
`g->done(x)`: the inner value propagated into the derived future. -/
theorem c2_inner_eval (input x : String) :
    c2AfterInner input x
      = ({ futs :=
             [{ state := FState.done, value := input, failureReason := "",
                ex := none, tasks := [] },
              { state := FState.done, value := x, failureReason := "",
                ex := none, tasks := [] },
              { state := FState.done, value := x, failureReason := "",
                ex := none, tasks := [] }],
           okCalls := 1, log := ["ok:" ++ input] }, Outcome.ok) :=
  rfl

/-- Claim C2: with `seq = f.then(ok)` where `ok` returns the pending
future `g`, after `f.done(input)` the callback `ok` has been invoked
exactly once, with the value `input`, and `seq` is still pending; only
after `g.done(x)` does `seq` become done with `seq.value() = x`. -/
theorem C2_then_success_path (input x : String) :
    (c2AfterSrc input).2 = Outcome.ok
    ∧ (c2AfterSrc input).1.okCalls = 1
    ∧ (c2AfterSrc input).1.log = ["ok:" ++ input]
    ∧ (getFut (c2AfterSrc input).1 2).state = FState.pending
    ∧ (c2AfterInner input x).2 = Outcome.ok
    ∧ (c2AfterInner input x).1.okCalls = 1
    ∧ (getFut (c2AfterInner input x).1 2).state = FState.done
    ∧ value (getFut (c2AfterInner input x).1 2) = Except.ok x := by
  refine ⟨?_, ?_, ?_, ?_, ?_, ?_, ?_, ?_⟩ <;>
    simp only [c2_src_eval, c2_inner_eval] <;> rfl

/-- Claim C3 (divergence record): evaluating `base_future::needs_all` at
the claim's inputs. With zero inputs the aggregate is created pending and
never resolves; with one input that is then marked done, and with two
inputs both marked done, the aggregate is still pending (the countdown was
initialised from the moved-from vector, i.e. to zero); a failing input
does make the aggregate failed and cancels its sibling, but a cancelled
input leaves the aggregate cancelled, not failed. -/
theorem C3_needs_all_evaluation :
    (getB c3empty.1.1 0).state = BState.pending
    ∧ c3empty.1.2 = BOutcome.ok
    ∧ c3oneDone.2 = BOutcome.ok
    ∧ (getB c3oneDone.1 0).state = BState.complete
    ∧ (getB c3oneDone.1 1).state = BState.pending
    ∧ c3bothDone.2 = BOutcome.ok
    ∧ (getB c3bothDone.1 0).state = BState.complete
    ∧ (getB c3bothDone.1 1).state = BState.complete
    ∧ (getB c3bothDone.1 2).state = BState.pending
    ∧ (getB c3fail.1 2).state = BState.failed
    ∧ (getB c3fail.1 1).state = BState.cancelled
    ∧ (getB c3cancel.1 2).state = BState.cancelled
    ∧ (getB c3cancel.1 1).state = BState.cancelled :=
  ⟨rfl, rfl, rfl, rfl, rfl, rfl, rfl, rfl, rfl, rfl, rfl, rfl, rfl⟩

/-- Counterexample to claim C4 as stated: resolving a future whose queue
holds a throwing callback followed by a logging callback. The exception is
NOT caught at the dispatch boundary - it escapes from `done` - and the
remaining queued callback is never invoked (the log stays empty), though
the transition itself did complete. -/
theorem C4_counterexample_drain_aborts :
    c4crun.2 = Outcome.threw (CppError.runtimeError "boom")
    ∧ c4crun.1.log = []
    ∧ (getFut c4crun.1 0).state = FState.done
    ∧ (getFut c4crun.1 0).value = "v" :=
  ⟨rfl, rfl, rfl, rfl⟩

/-- Claim C4 as amended: when a queued callback raises during the drain,
the future's own state and payload are already set and stay uncorrupted,
but in the typed `future<T>` the exception is not caught at the dispatch
boundary: it propagates to the caller of `done`/`fail`/`cancel` and none
of the remaining queued callbacks is invoked. (In the untyped
`base_future` only a thrown `std::string` is caught - reported to cerr
and the drain continues - while any other exception aborts the drain.) -/
theorem C4_amended_exception_policy (msg v : String) (rest : List Cb) :
    c4run msg rest v
      = ({ futs := [{ state := FState.done, value := v, failureReason := "",
                      ex := none, tasks := [] }],
           okCalls := 0, log := [] },
         Outcome.threw (CppError.runtimeError msg))
    ∧ c4brun.2 = BOutcome.ok
    ∧ c4brun.1.log = ["Exception in callback - boom", "second"]
    ∧ (getB c4brun.1 0).state = BState.complete :=
  ⟨rfl, rfl, rfl, rfl⟩

/-- Claim C5: `value()` returns the stored value when done, throws
`std::runtime_error("future is not complete")` when pending,
`std::runtime_error("future was cancelled")` when cancelled, rethrows the
stored exception when failed, and never returns normally in a non-done
state. -/
theorem C5_value_by_state (f : Fut) :
    (f.state = FState.done → value f = Except.ok f.value)
    ∧ (f.state = FState.pending →
        value f = Except.error (CppError.runtimeError "future is not complete"))
    ∧ (f.state = FState.cancelled →
        value f = Except.error (CppError.runtimeError "future was cancelled"))
    ∧ (∀ e, f.state = FState.failed → f.ex = some e → value f = Except.error e)
    ∧ (f.state ≠ FState.done → ∀ v, value f ≠ Except.ok v) := by
  obtain ⟨st, v, fr, ex, ts⟩ := f
  cases st <;> cases ex <;> simp [value]

/-- Witness for C5: a done future yields its stored value. -/
theorem C5_value_by_state_witness :
    value { state := FState.done, value := "42", failureReason := "",
            ex := none, tasks := [] } = Except.ok "42" :=
  (C5_value_by_state
    { state := FState.done, value := "42", failureReason := "", ex := none, tasks := [] }).1
    rfl

/-- Counting lemma for the `repeat` recursion: if `check` rejects the
first `k` successive states and accepts the `k`-th iterate, the loop
terminates with exactly `k` further body invocations (given fuel). -/
theorem repeatRun_count (check : Nat → Bool) (next : Nat → Nat) :
    ∀ (k s calls fuel : Nat),
      (∀ i, i < k → check (next^[i] s) = false) →
      check (next^[k] s) = true → k < fuel →
      repeatRun check next fuel false s calls = some (calls + k) := by
  intro k
  induction k with
  | zero =>
    intro s calls fuel _h hk hfuel
    match fuel, hfuel with
    | fuel + 1, _ =>
      simp only [Function.iterate_zero, id_eq] at hk
      simp [repeatRun, hk]
  | succ k ih =>
    intro s calls fuel h hk hfuel
    match fuel, hfuel with
    | fuel + 1, hfuel =>
      have h0 : check s = false := by
        have h0' := h 0 (Nat.succ_pos k)
        simpa using h0'
      have hrest : ∀ i, i < k → check (next^[i] (next s)) = false := by
        intro i hi
        have hi' := h (i + 1) (by omega)
        simpa [Function.iterate_succ_apply] using hi'
      have hk' : check (next^[k] (next s)) = true := by
        simpa [Function.iterate_succ_apply] using hk
      have hstep := ih (next s) (calls + 1) fuel hrest hk' (by omega)
      have harith : calls + 1 + k = calls + (k + 1) := by omega
      calc repeatRun check next (fuel + 1) false s calls
          = repeatRun check next fuel false (next s) (calls + 1) := by
            simp [repeatRun, h0]
        _ = some (calls + 1 + k) := hstep
        _ = some (calls + (k + 1)) := by rw [harith]

/-- Claim C6: `repeat(check, body)` - if `check` holds of the first state
the loop resolves done with the body never invoked (the case `k = 0`);
if `check` fails for the first `k` successive states and then holds, the
body is invoked exactly `k` times, sequentially, each returned future
fully awaited before the next `check` (the synchronous embedding advances
one state per completed body future). -/
theorem C6_repeat_loop (check : Nat → Bool) (next : Nat → Nat) (s k fuel : Nat)
    (hfalse : ∀ i, i < k → check (next^[i] s) = false)
    (htrue : check (next^[k] s) = true) (hfuel : k < fuel) :
    repeatStart check next fuel s = some k := by
  have hmain := repeatRun_count check next k s 0 fuel hfalse htrue hfuel
  simpa [repeatStart] using hmain

/-- Witness for C6: with `check s = (2 ≤ s)` from state 0 and successor
steps, the loop runs the body exactly twice. -/
theorem C6_repeat_loop_witness :
    repeatStart (fun n => decide (2 ≤ n)) Nat.succ 5 0 = some 2 :=
  C6_repeat_loop (fun n => decide (2 ≤ n)) Nat.succ 0 2 5 (by decide) (by decide)
    (by decide)

/-- Claim C7: after `f.fail("msg")` through the string overload,
`failure_reason()` returns exactly the original message (and `value()`
rethrows the stored `std::runtime_error`); on any future that is not
failed, `failure_reason()` throws
`std::runtime_error("future is not failed")`. -/
theorem C7_fail_stores_reason (msg : String) (f : Fut) (h : f.state ≠ FState.failed) :
    (c7Fail msg).2 = Outcome.ok
    ∧ failure_reason (getFut (c7Fail msg).1 0) = Except.ok msg
    ∧ value (getFut (c7Fail msg).1 0) = Except.error (CppError.runtimeError msg)
    ∧ failure_reason f = Except.error (CppError.runtimeError "future is not failed") := by
  refine ⟨rfl, rfl, rfl, ?_⟩
  simp [failure_reason, h]

/-- Witness for C7: the spec's own scenario, message `"some reason"`, and
a pending future for the not-failed branch. -/
theorem C7_fail_stores_reason_witness :
    failure_reason (getFut (c7Fail "some reason").1 0) = Except.ok "some reason"
    ∧ failure_reason defaultFut
        = Except.error (CppError.runtimeError "future is not failed") :=
  ⟨(C7_fail_stores_reason "some reason" defaultFut (by decide)).2.1,
   (C7_fail_stores_reason "some reason" defaultFut (by decide)).2.2.2⟩

/-- Evaluation of the C8 scenario (no failure handler) after
`f->fail(msg)`: the derived future (id 2) failed with the same message and
the same stored exception; `g` (id 1) is untouched. -/
theorem c8A_eval (msg : String) :
    c8FailA msg
      = ({ futs :=
             [{ state := FState.failed, value := "", failureReason := msg,
                ex := some (CppError.runtimeError msg), tasks := [] },
              { state := FState.pending, value := "", failureReason := "",
                ex := none, tasks := [] },
              { state := FState.failed, value := "", failureReason := msg,
                ex := some (CppError.runtimeError msg), tasks := [] }],
           okCalls := 0, log := [] }, Outcome.ok) :=
  rfl

/-- Evaluation of the C8 scenario with one never-matching failure
handler: identical outcome. -/
theorem c8B_eval (msg : String) :
    c8FailB msg
      = ({ futs :=
             [{ state := FState.failed, value := "", failureReason := msg,
                ex := some (CppError.runtimeError msg), tasks := [] },
              { state := FState.pending, value := "", failureReason := "",
                ex := none, tasks := [] },
              { state := FState.failed, value := "", failureReason := msg,
                ex := some (CppError.runtimeError msg), tasks := [] }],
           okCalls := 0, log := [] }, Outcome.ok) :=
  rfl

/-- Claim C8: `then` failure path with no failure handler, or none whose
accepted error shape matches: after `f.fail(msg)` the derived future is
failed and carries the identical message and exception payload, so
`seq.failure_reason() = f.failure_reason()`; the success callback was
never invoked. -/
theorem C8_then_failure_passthrough (msg : String) :
    (c8FailA msg).2 = Outcome.ok
    ∧ (getFut (c8FailA msg).1 2).state = FState.failed
    ∧ failure_reason (getFut (c8FailA msg).1 2) = Except.ok msg
    ∧ failure_reason (getFut (c8FailA msg).1 2) = failure_reason (getFut (c8FailA msg).1 0)
    ∧ (getFut (c8FailA msg).1 2).ex = (getFut (c8FailA msg).1 0).ex
    ∧ (c8FailA msg).1.okCalls = 0
    ∧ (c8FailB msg).2 = Outcome.ok
    ∧ (getFut (c8FailB msg).1 2).state = FState.failed
    ∧ failure_reason (getFut (c8FailB msg).1 2) = failure_reason (getFut (c8FailB msg).1 0)
    ∧ (getFut (c8FailB msg).1 2).ex = (getFut (c8FailB msg).1 0).ex := by
  refine ⟨?_, ?_, ?_, ?_, ?_, ?_, ?_, ?_, ?_, ?_⟩ <;>
    simp only [c8A_eval, c8B_eval] <;> rfl

/-- Evaluation of the C9 scenario after the derived future (id 2) is
cancelled externally while everything else is still pending. -/
theorem c9_cancelFirst_eval :
    c9CancelFirst
      = ({ futs :=
             [{ state := FState.pending, value := "", failureReason := "", ex := none,
                tasks := [Cb.thenCb 2 (OkSpec.returnFut 1) []] },
              { state := FState.pending, value := "", failureReason := "",
                ex := none, tasks := [] },
              { state := FState.cancelled, value := "", failureReason := "",
                ex := none, tasks := [] }],
           okCalls := 0, log := [] }, Outcome.ok) :=
  rfl

/-- Evaluation of the C9 guard scenario (a): the source resolves after
the derived future was cancelled; the dispatch callback's
`if(f->is_ready()) return;` guard makes this a silent no-op. -/
theorem c9_thenDone_eval (input : String) :
    c9ThenDone input
      = ({ futs :=
             [{ state := FState.done, value := input, failureReason := "",
                ex := none, tasks := [] },
              { state := FState.pending, value := "", failureReason := "",
                ex := none, tasks := [] },
              { state := FState.cancelled, value := "", failureReason := "",
                ex := none, tasks := [] }],
           okCalls := 0, log := [] }, Outcome.ok) :=
  rfl

/-- Evaluation of the C9 guard scenario (b), first step: the source
resolves done and the inner future is wired onto the derived future. -/
theorem c9_doneFirst_eval (input : String) :
    c9DoneFirst input
      = ({ futs :=
             [{ state := FState.done, value := input, failureReason := "",
                ex := none, tasks := [] },
              { state := FState.pending, value := "", failureReason := "", ex := none,
                tasks := [Cb.doneTo 2, Cb.failFromMe 2, Cb.cancelTo 2] },
              { state := FState.pending, value := "", failureReason := "", ex := none,
                tasks := [Cb.cancelTo 1] }],
           okCalls := 1, log := ["ok:" ++ input] }, Outcome.ok) :=
  rfl

/-- Evaluation of the C9 guard scenario (b), second step: cancelling the
derived future cancels the inner future, whose unguarded wiring then
re-enters the already-cancelled derived future - the double-resolve
`std::logic_error` escapes from the original cancel call. -/
theorem c9_thenCancel_eval (input : String) :
    c9ThenCancel input
      = ({ futs :=
             [{ state := FState.done, value := input, failureReason := "",
                ex := none, tasks := [] },
              { state := FState.cancelled, value := "", failureReason := "",
                ex := none, tasks := [] },
              { state := FState.cancelled, value := "", failureReason := "",
                ex := none, tasks := [] }],
           okCalls := 1, log := ["ok:" ++ input] },
         Outcome.threw (CppError.logicError
           "tried to resolve future twice, wanted cancelled:cancelled")) :=
  rfl

/-- Counterexample to claim C9 as stated: `f.done("v")` wires the inner
future `g` onto the derived future `seq`; cancelling `seq` (making it
terminal) cancels `g`, and `g`'s resolution then attempts to propagate
back into the already-terminal `seq` - that attempt is not a no-op: a
double-resolve `std::logic_error` escapes to the resolver. -/
theorem C9_counterexample_inner_propagation :
    (c9ThenCancel "v").2
      = Outcome.threw (CppError.logicError
          "tried to resolve future twice, wanted cancelled:cancelled")
    ∧ (getFut (c9DoneFirst "v").1 2).state = FState.pending
    ∧ (getFut (c9ThenCancel "v").1 2).state = FState.cancelled :=
  ⟨rfl, rfl, rfl⟩

/-- Claim C9 as amended: the idempotence guard holds on the source side -
if the derived future is already terminal when the source resolves, the
`then` dispatch callback returns without touching it, no error escapes to
the source's resolver, and the success callback is never invoked - but
the wiring registered on the inner future has no such guard, so once the
inner future resolves while the derived future is terminal, the
propagation attempt throws a double-resolve error that escapes to the
inner future's resolver. -/
theorem C9_amended_guard (input : String) :
    c9CancelFirst.2 = Outcome.ok
    ∧ (getFut c9CancelFirst.1 2).state = FState.cancelled
    ∧ (c9ThenDone input).2 = Outcome.ok
    ∧ (c9ThenDone input).1.okCalls = 0
    ∧ (c9ThenDone input).1.log = []
    ∧ getFut (c9ThenDone input).1 2 = getFut c9CancelFirst.1 2
    ∧ (getFut (c9ThenDone input).1 1).state = FState.pending
    ∧ (c9ThenCancel input).2
        = Outcome.threw (CppError.logicError
            (doubleResolveMsg FState.cancelled FState.cancelled)) := by
  refine ⟨?_, ?_, ?_, ?_, ?_, ?_, ?_, ?_⟩ <;>
    simp only [c9_cancelFirst_eval, c9_thenDone_eval, c9_thenCancel_eval] <;> rfl

/-- Claim C10: the non-throwing `value(ec)` returns the stored value and
leaves `ec` exactly as passed in whenever the state is done; `ec` is
assigned only in the pending, failed and cancelled branches, which return
a default-constructed value. -/
theorem C10_valueEc_branches (f : Fut) (ec : ErrCode) :
    (f.state = FState.done → valueEc f ec = (f.value, ec))
    ∧ (f.state = FState.pending →
        valueEc f ec = ("", make_error_code FutureErrc.is_pending))
    ∧ (f.state = FState.failed →
        valueEc f ec = ("", make_error_code FutureErrc.is_failed))
    ∧ (f.state = FState.cancelled →
        valueEc f ec = ("", make_error_code FutureErrc.is_cancelled)) := by
  obtain ⟨st, v, fr, ex, ts⟩ := f
  cases st <;> simp [valueEc]

/-- Witness for C10: a done future returns its payload and an unrelated
incoming error code is left untouched. -/
theorem C10_valueEc_branches_witness :
    valueEc
      { state := FState.done, value := "payload", failureReason := "",
        ex := none, tasks := [] }
      (ErrCode.foreign 7) = ("payload", ErrCode.foreign 7) :=
  (C10_valueEc_branches
    { state := FState.done, value := "payload", failureReason := "", ex := none, tasks := [] }
    (ErrCode.foreign 7)).1 rfl
